import Mathlib

/-!
Verification of the serrors library (github.com/morningconsult/serrors): a
shallow embedding of its error types (stack-trace wrapping errors, status-code
errors, sentinel errors) and of the Go standard-library mechanisms they rely
on (errors.Is, errors.As, fmt formatting, runtime stack capture), together with
theorems settling the specification's claims.

Modelling conventions:
* A Go `error` interface value is a `GoError`; the constructor `nilE` is the
  nil interface value.
* The ambient goroutine call stack, as seen by `runtime.Callers` after the
  fixed skip offset used by `buildStackTrace` (skip = 3: runtime.Callers,
  buildStackTrace, and the public serrors function), is passed explicitly as a
  `List Frame` argument to every capturing constructor.
* Heap allocation identity (pointer equality of `errors.New` results,
  `fmt.Errorf` results, and `&stackErr{...}` allocations) is modelled by
  fresh numeric ids / term identity; distinct allocations are represented by
  distinct terms.
* `fmt.Errorf` format-string processing is not re-implemented: the model takes
  the already-formatted message and the (at most one) `%w`-wrapped argument,
  which is the only part of fmt the library's behaviour depends on.
-/

/-- One entry of a call stack, as produced by `runtime.Frames`: the fields the
trace templates may reference (Function, File, Line). -/
structure Frame where
  function : String
  file : String
  line : Nat
deriving Repr, DecidableEq

/-- The zero value of `runtime.Frame`, returned by `(*runtime.Frames).Next`
when the program-counter slice is empty. -/
def zeroFrame : Frame := ⟨"", "", 0⟩

/-- The dynamic error values that can occur in chains built by the serrors
package:
* `nilE` — the nil `error` interface value.
* `base id msg` — a `*errors.errorString` from `errors.New` (also the result of
  `fmt.Errorf` without `%w`); `id` models the allocation (pointer identity).
* `sentinel s` — `serrors.Sentinel(s)`, a string type with value equality.
* `wrapf id msg inner` — a `*fmt.wrapError` from `fmt.Errorf` with one `%w`.
* `msgOnly msg` — an opaque comparable user error type with only an `Error()`
  method (e.g. the test suite's `messageError`).
* `stackErr err trace stackTracer ptr` — `serrors.stackErr` (stackTracer nilE
  means the field is nil); `ptr` is true for the `&stackErr{...}` allocations
  made in status.go and false for the value returns in errors.go (the dynamic
  types `*stackErr` and `stackErr` differ, and only the former is comparable).
* `statusError code err` — `serrors.statusError`. -/
inductive GoError : Type where
  | nilE
  | base (id : Nat) (msg : String)
  | sentinel (s : String)
  | wrapf (id : Nat) (msg : String) (inner : GoError)
  | msgOnly (msg : String)
  | stackErr (err : GoError) (trace : List Frame) (stackTracer : GoError)
      (ptr : Bool)
  | statusError (code : Int) (err : GoError)
deriving Repr, DecidableEq

namespace GoError

/-- The `Error()` method of each modelled type. `stackErr.Error` and
`statusError.Error` return the wrapped error's message, or "" when the wrapped
error is nil (errors.go stackErr.Error, status.go statusError.Error); on the
nil interface itself the method is never invoked (and yields "" here). -/
def errMsg : GoError → String
  | .nilE => ""
  | .base _ msg => msg
  | .sentinel s => s
  | .wrapf _ msg _ => msg
  | .msgOnly msg => msg
  | .stackErr e _ _ _ => errMsg e
  | .statusError _ e => errMsg e

/-- The unwrap chain of an error: the error followed by everything reachable
by repeated `Unwrap()`. `wrapError.Unwrap`, `stackErr.Unwrap` and
`statusError.Unwrap` return their wrapped error (a nil one ends the walk);
the leaf types have no Unwrap method. -/
def chain : GoError → List GoError
  | .nilE => []
  | e@(.wrapf _ _ inner) => e :: chain inner
  | e@(.stackErr inner _ _ _) => e :: chain inner
  | e@(.statusError _ inner) => e :: chain inner
  | e => [e]

/-- Whether the dynamic type implements `serrors.StackTracer` (has a
`StackTrace() *runtime.Frames` method): only `stackErr` (and `*stackErr`,
since the method has a value receiver). -/
def isTracerB : GoError → Bool
  | .stackErr _ _ _ _ => true
  | _ => false

/-- `errors.As(err, &se)` for `se` a `StackTracer`: walk the unwrap chain and
return the first element whose type implements the interface. -/
def asStackTracer : GoError → Option GoError
  | e@(.stackErr _ _ _ _) => some e
  | .wrapf _ _ inner => asStackTracer inner
  | .statusError _ inner => asStackTracer inner
  | _ => none

/-- `stackErr.StackTrace()`: if the `stackTracer` field is set the call is
delegated to it, otherwise the captured `trace` slice is returned (as frames).
On non-stackErr values (never invoked in the code) it yields []. -/
def stackTraceOf : GoError → List Frame
  | .stackErr _ trace .nilE _ => trace
  | .stackErr _ _ st _ => stackTraceOf st
  | _ => []

/-- `errors.As(err, &sc)` for `sc` a `StatusCoder`, followed by
`sc.StatusCode()`: the code of the first element of the unwrap chain whose
type has a `StatusCode() int` method (only `statusError`). -/
def statusCodeOf : GoError → Option Int
  | .statusError code _ => some code
  | .wrapf _ _ inner => statusCodeOf inner
  | .stackErr inner _ _ _ => statusCodeOf inner
  | _ => none

end GoError

namespace GoError

/-- Whether `reflectlite.TypeOf(target).Comparable()` holds for the dynamic
type: `stackErr` contains a slice field and is not comparable; the pointer
type `*stackErr` (ptr = true) and all the other modelled types are
comparable. The nil interface has no type (errors.Is guards it separately). -/
def typeComparable : GoError → Bool
  | .stackErr _ _ _ ptr => ptr
  | _ => true

/-- Go interface equality `x == y` on error values: `some b` when the
comparison yields `b`, `none` when it panics (comparison of two values of the
same non-comparable dynamic type). Different dynamic types compare unequal;
pointer identity (base, wrapf, *stackErr allocations) is modelled as term
identity; `statusError` is compared field by field in source order, so unequal
codes stop the comparison before the `Err` interface fields are compared. -/
def goEq : GoError → GoError → Option Bool
  | .nilE, .nilE => some true
  | .base i m, .base j n => some (decide (i = j ∧ m = n))
  | .sentinel a, .sentinel b => some (decide (a = b))
  | .wrapf i m a, .wrapf j n b => some (decide (i = j ∧ m = n ∧ a = b))
  | .msgOnly a, .msgOnly b => some (decide (a = b))
  | .stackErr e1 t1 s1 p1, .stackErr e2 t2 s2 p2 =>
      if p1 && p2 then some (decide (e1 = e2 ∧ t1 = t2 ∧ s1 = s2))
      else if p1 = p2 then none
      else some false
  | .statusError c1 e1, .statusError c2 e2 =>
      if c1 = c2 then goEq e1 e2 else some false
  | _, _ => some false

/-- `errors.Is(e, target)` for non-nil `e` and `target`: the standard-library
loop. At each chain element it first tries `==` (only when the target's type
is comparable; a panicking comparison is `none`), then the element's
`Is(error) bool` method — only `stackErr` has one: compared against a
(value-typed) `stackErr` target it unwraps both sides
(`errors.Is(se.err, err.Err)`), against anything else it compares its wrapped
error to the target (`errors.Is(se.err, err)`) — and then follows `Unwrap()`,
stopping when it is absent or returns nil. -/
def orElseO : Option Bool → Option Bool → Option Bool
  | none, _ => none
  | some true, _ => some true
  | some false, b => b

/-- The per-element `==` attempt of the errors.Is loop: performed only when
the target's dynamic type is comparable (otherwise skipped, i.e. false). -/
def eqStep (e target : GoError) : Option Bool :=
  if typeComparable target then goEq e target else some false

/-- The wrapped error of a value-typed stackErr: the only shape for which the
type assertion `err.(stackErr)` inside stackErr.Is succeeds (a `*stackErr`
target does not satisfy the value type assertion). -/
def valueStackErrInner : GoError → Option GoError
  | .stackErr tinner _ _ false => some tinner
  | _ => none

def errorsIs (e target : GoError) : Option Bool :=
  orElseO (eqStep e target)
    (match e with
     | .stackErr inner _ _ _ =>
        orElseO
          (match valueStackErrInner target with
           | some tinner =>
               if inner = .nilE then
                 (if tinner = .nilE then some true else some false)
               else if tinner = .nilE then some false
               else errorsIs inner tinner
           | none =>
               if inner = .nilE then some false
               else errorsIs inner target)
          (if inner = .nilE then some false else errorsIs inner target)
     | .wrapf _ _ inner => errorsIs inner target
     | .statusError _ inner =>
        if inner = .nilE then some false else errorsIs inner target
     | _ => some false)

end GoError

/-- buildStackTrace (errors.go): `runtime.Callers(3, pc)` into a fixed
20-entry buffer, truncated to the number of frames written. The argument is
the ambient stack after the skip offset; at most its first 20 entries are
recorded. -/
def buildStackTrace (stk : List Frame) : List Frame := stk.take 20

/-- WithStack (errors.go): nil in, nil out; an error whose chain already has a
StackTracer is returned unchanged; otherwise it is wrapped in a stackErr that
captures the current stack. -/
def WithStack (stk : List Frame) (err : GoError) : GoError :=
  match err with
  | .nilE => .nilE
  | e =>
    match e.asStackTracer with
    | some _ => e
    | none => .stackErr e (buildStackTrace stk) .nilE false

/-- New (errors.go): a stackErr over a fresh `errors.New(msg)` with a fresh
capture. -/
def New (stk : List Frame) (id : Nat) (msg : String) : GoError :=
  .stackErr (.base id msg) (buildStackTrace stk) .nilE false

/-- The error built by `fmt.Errorf`: with a `%w` argument it is a
`*fmt.wrapError` wrapping that argument; without one it is a plain allocated
error. `msg` is the fully formatted string. -/
def fmtErrorf (id : Nat) (msg : String) (wrapped : GoError) : GoError :=
  match wrapped with
  | .nilE => .base id msg
  | w => .wrapf id msg w

/-- Errorf (errors.go): wraps the `fmt.Errorf` result in a stackErr; when a
StackTracer already sits in the unwrap chain it is stored in the stackTracer
field (no capture, trace left nil), otherwise a fresh capture is taken. -/
def Errorf (stk : List Frame) (id : Nat) (msg : String) (wrapped : GoError) :
    GoError :=
  match (fmtErrorf id msg wrapped).asStackTracer with
  | some st => .stackErr (fmtErrorf id msg wrapped) [] st false
  | none => .stackErr (fmtErrorf id msg wrapped) (buildStackTrace stk) .nilE false

/-- The non-nil branch of WithStatus (status.go): if the chain already has a
StackTracer, the statusError wraps the error directly; otherwise the error is
first wrapped in a freshly capturing `&stackErr{...}` (a pointer allocation). -/
def withStatusE (stk : List Frame) (code : Int) (e : GoError) : GoError :=
  match e.asStackTracer with
  | some _ => .statusError code e
  | none => .statusError code (.stackErr e (buildStackTrace stk) .nilE true)

/-- WithStatus (status.go): panics — modelled as `Except.error` with the panic
message — on a nil error, and otherwise bundles the error with the code. -/
def WithStatus (stk : List Frame) (code : Int) (err : GoError) :
    Except String GoError :=
  match err with
  | .nilE => .error "cannot attach status to nil error"
  | e => .ok (withStatusE stk code e)

/-- NewStatusError (status.go): a statusError over a `&stackErr{...}` holding
a fresh `errors.New(msg)` and a fresh capture. -/
def NewStatusError (stk : List Frame) (code : Int) (id : Nat) (msg : String) :
    GoError :=
  .statusError code (.stackErr (.base id msg) (buildStackTrace stk) .nilE true)

/-- NewStatusErrorf (status.go): the `fmt.Errorf` result is wrapped in a
`&stackErr{...}` that reuses an existing StackTracer from the unwrap chain if
present (no capture) and captures freshly otherwise, then bundled with the
code. -/
def NewStatusErrorf (stk : List Frame) (code : Int) (id : Nat) (msg : String)
    (wrapped : GoError) : GoError :=
  match (fmtErrorf id msg wrapped).asStackTracer with
  | some st => .statusError code (.stackErr (fmtErrorf id msg wrapped) [] st true)
  | none =>
      .statusError code
        (.stackErr (fmtErrorf id msg wrapped) (buildStackTrace stk) .nilE true)

/-- net/http StatusText: the canonical reason phrase for an HTTP status code,
or "" for an unrecognized code (the table of the Go standard library). -/
def httpStatusText : Int → String
  | 100 => "Continue"
  | 101 => "Switching Protocols"
  | 102 => "Processing"
  | 103 => "Early Hints"
  | 200 => "OK"
  | 201 => "Created"
  | 202 => "Accepted"
  | 203 => "Non-Authoritative Information"
  | 204 => "No Content"
  | 205 => "Reset Content"
  | 206 => "Partial Content"
  | 207 => "Multi-Status"
  | 208 => "Already Reported"
  | 226 => "IM Used"
  | 300 => "Multiple Choices"
  | 301 => "Moved Permanently"
  | 302 => "Found"
  | 303 => "See Other"
  | 304 => "Not Modified"
  | 305 => "Use Proxy"
  | 307 => "Temporary Redirect"
  | 308 => "Permanent Redirect"
  | 400 => "Bad Request"
  | 401 => "Unauthorized"
  | 402 => "Payment Required"
  | 403 => "Forbidden"
  | 404 => "Not Found"
  | 405 => "Method Not Allowed"
  | 406 => "Not Acceptable"
  | 407 => "Proxy Authentication Required"
  | 408 => "Request Timeout"
  | 409 => "Conflict"
  | 410 => "Gone"
  | 411 => "Length Required"
  | 412 => "Precondition Failed"
  | 413 => "Request Entity Too Large"
  | 414 => "Request URI Too Long"
  | 415 => "Unsupported Media Type"
  | 416 => "Requested Range Not Satisfiable"
  | 417 => "Expectation Failed"
  | 418 => "I\x27m a teapot"
  | 421 => "Misdirected Request"
  | 422 => "Unprocessable Entity"
  | 423 => "Locked"
  | 424 => "Failed Dependency"
  | 425 => "Too Early"
  | 426 => "Upgrade Required"
  | 428 => "Precondition Required"
  | 429 => "Too Many Requests"
  | 431 => "Request Header Fields Too Large"
  | 451 => "Unavailable For Legal Reasons"
  | 500 => "Internal Server Error"
  | 501 => "Not Implemented"
  | 502 => "Bad Gateway"
  | 503 => "Service Unavailable"
  | 504 => "Gateway Timeout"
  | 505 => "HTTP Version Not Supported"
  | 506 => "Variant Also Negotiates"
  | 507 => "Insufficient Storage"
  | 508 => "Loop Detected"
  | 510 => "Not Extended"
  | 511 => "Network Authentication Required"
  | _ => ""

/-- NewFromStatus (status.go): like NewStatusError, with the message taken
from http.StatusText and falling back to "Unknown Status Error" when the code
is unrecognized. -/
def NewFromStatus (stk : List Frame) (code : Int) (id : Nat) : GoError :=
  .statusError code
    (.stackErr
      (.base id
        (if httpStatusText code = "" then "Unknown Status Error"
         else httpStatusText code))
      (buildStackTrace stk) .nilE true)

/-- A text/template over the three substitutable frame fields, as consumed by
Trace: executing it on a frame either produces the rendered line or fails
with an error value (e.g. the undefined-field error of text/template). -/
structure Template where
  render : Frame → Except GoError String

/-- The rendered form of one frame under the StandardFormat template,
"Function (File:Line)". -/
def standardRender (f : Frame) : String :=
  f.function ++ " (" ++ f.file ++ ":" ++ toString f.line ++ ")"

/-- StandardFormat (errors.go): the default one-line frame template; its
execution never fails. -/
def StandardFormat : Template := ⟨fun f => .ok (standardRender f)⟩

/-- The rendered form of one frame under the PanicFormat template: the
function name, a newline, then a tab-indented File:Line. -/
def panicRender (f : Frame) : String :=
  f.function ++ "\n\t" ++ f.file ++ ":" ++ toString f.line

/-- PanicFormat (errors.go): the panic-style two-line frame template; its
execution never fails. -/
def PanicFormat : Template := ⟨fun f => .ok (panicRender f)⟩

/-- The sequence of frames the `frames.Next()` do-while loop of Trace visits:
each captured frame in order; on an empty program-counter slice the first
`Next` call still yields the zero frame once. -/
def framesSeq (fs : List Frame) : List Frame :=
  match fs with
  | [] => [zeroFrame]
  | fs => fs

/-- The rendering loop of Trace: every visited frame is rendered in order;
the first failure aborts with the template's error and no partial output. -/
def renderAll (t : Template) (fs : List Frame) : Except GoError (List String) :=
  (framesSeq fs).mapM t.render

/-- Trace (errors.go): finds the first StackTracer of the chain (nil result
and nil error if there is none), renders its resolved frames with the given
template, and on a template failure returns a nil slice together with the
failure wrapped by WithStack. -/
def Trace (stk : List Frame) (e : GoError) (t : Template) :
    Option (List String) × GoError :=
  match e.asStackTracer with
  | none => (none, .nilE)
  | some st =>
    match renderAll t st.stackTraceOf with
    | .error terr => (none, WithStack stk terr)
    | .ok lines => (some lines, .nilE)

/-- The lines Trace produces for a frame list under StandardFormat. -/
def standardLines (fs : List Frame) : List String :=
  (framesSeq fs).map standardRender

namespace GoError

mutual

/-- fmt rendering of an error value with verb s or v (without the plus flag):
fmt uses the `Format` method when the dynamic type implements fmt.Formatter —
stackErr (StackErr.Format writes se.Error() for these verbs) and statusError
(statusError.Format delegates to the first fmt.Formatter in its wrapped
chain, found with errors.As, and otherwise writes s.Error()) — and prints the
`Error()` string for every other error type. -/
def fmtShort : GoError → String
  | e@(.stackErr _ _ _ _) => errMsg e
  | .statusError _ .nilE => ""
  | .statusError _ inner => statusDelegateShort inner (errMsg inner)
  | e => errMsg e
termination_by e => (sizeOf e, 0)

/-- The errors.As walk of statusError.Format over the wrapped chain, looking
for a fmt.Formatter to delegate the verb to; the fallback string is the
statusError's own Error() output. -/
def statusDelegateShort : GoError → String → String
  | .stackErr a tr st p, _ => fmtShort (.stackErr a tr st p)
  | .statusError c i, _ => fmtShort (.statusError c i)
  | .wrapf _ _ inner, fb => statusDelegateShort inner fb
  | _, fb => fb
termination_by e _ => (sizeOf e, 1)

end

mutual

/-- fmt rendering of an error value with %+v: stackErr (StackErr.Format)
prints the %+v rendering of its wrapped error, a newline, then the lines of
`Trace(se, StandardFormat)` joined by newlines; statusError delegates exactly
as for the short verbs; every other error type prints its `Error()` string,
and a nil error prints "<nil>". -/
def fmtVerbose : GoError → String
  | .nilE => "<nil>"
  | e@(.stackErr inner _ _ _) =>
      fmtVerbose inner ++ "\n"
        ++ String.intercalate "\n" (standardLines e.stackTraceOf)
  | .statusError _ .nilE => ""
  | .statusError _ inner => statusDelegateVerbose inner (errMsg inner)
  | e => errMsg e
termination_by e => (sizeOf e, 0)

/-- The errors.As walk of statusError.Format for the %+v verb. -/
def statusDelegateVerbose : GoError → String → String
  | .stackErr a tr st p, _ => fmtVerbose (.stackErr a tr st p)
  | .statusError c i, _ => fmtVerbose (.statusError c i)
  | .wrapf _ _ inner, fb => statusDelegateVerbose inner fb
  | _, fb => fb
termination_by e _ => (sizeOf e, 1)

end

end GoError

namespace GoError

/-- Whether no element of the unwrap chain is a StackTracer (the chains of
errors foreign to the library, e.g. plain, formatted or status-free user
errors that never passed through a serrors constructor). -/
def noTracerB (e : GoError) : Bool :=
  (chain e).all fun s => !isTracerB s

/-- Whether the value is a stackErr that actually performed a capture: its
stackTracer field is nil, so its StackTrace() serves its own trace slice. -/
def isCapturingB : GoError → Bool
  | .stackErr _ _ .nilE _ => true
  | _ => false

/-- The captured snapshot of a capturing stackErr. -/
def capTrace : GoError → List Frame
  | .stackErr _ tr .nilE _ => tr
  | _ => []

/-- The single-capture invariant of an unwrap chain: at most one element holds
an actually captured snapshot, and every trace-capable element resolves its
StackTrace() to the frames of a capturing element of the same chain. -/
def GoodChain (e : GoError) : Prop :=
  (chain e).countP isCapturingB ≤ 1 ∧
    ∀ s ∈ chain e, isTracerB s = true →
      ∃ c ∈ chain e, isCapturingB c = true ∧ stackTraceOf s = capTrace c

/-- The closure of error values the library's API can produce: any error with
no StackTracer in its chain (foreign input), plain `fmt.Errorf` wrapping, and
the serrors constructors over previously built errors. -/
inductive Built : GoError → Prop where
  | foreign (e : GoError) : noTracerB e = true → Built e
  | fmtwrap (i : Nat) (m : String) (e : GoError) : Built e → Built (.wrapf i m e)
  | new (stk : List Frame) (i : Nat) (m : String) : Built (New stk i m)
  | wstack (stk : List Frame) (e : GoError) : Built e → Built (WithStack stk e)
  | errf (stk : List Frame) (i : Nat) (m : String) (w : GoError) :
      Built w → Built (Errorf stk i m w)
  | wstatus (stk : List Frame) (c : Int) (e : GoError) :
      Built e → Built (withStatusE stk c e)
  | nse (stk : List Frame) (c : Int) (i : Nat) (m : String) :
      Built (NewStatusError stk c i m)
  | nsef (stk : List Frame) (c : Int) (i : Nat) (m : String) (w : GoError) :
      Built w → Built (NewStatusErrorf stk c i m w)
  | nfs (stk : List Frame) (c : Int) (i : Nat) : Built (NewFromStatus stk c i)

/-- The frames a consumer obtains from an error: those of the first
StackTracer of its chain, with delegation resolved ([] if there is none). -/
def resultFrames (e : GoError) : List Frame :=
  match e.asStackTracer with
  | some st => st.stackTraceOf
  | none => []

end GoError

namespace GoError

theorem chain_wrapf (i : Nat) (m : String) (inner : GoError) :
    chain (.wrapf i m inner) = .wrapf i m inner :: chain inner := rfl

theorem chain_stackErr (a : GoError) (tr : List Frame) (st : GoError)
    (p : Bool) : chain (.stackErr a tr st p) = .stackErr a tr st p :: chain a :=
  rfl

theorem chain_statusError (c : Int) (inner : GoError) :
    chain (.statusError c inner) = .statusError c inner :: chain inner := rfl

theorem self_mem_chain (e : GoError) (h : e ≠ .nilE) : e ∈ chain e := by
  cases e <;> simp [chain] at h ⊢

theorem isCapturing_isTracer (s : GoError) (h : isCapturingB s = true) :
    isTracerB s = true := by
  cases s <;> simp [isCapturingB, isTracerB] at h ⊢

theorem asStackTracer_mem (e st : GoError) (h : e.asStackTracer = some st) :
    st ∈ chain e ∧ isTracerB st = true := by
  induction e with
  | stackErr a tr s p _ _ =>
      simp [asStackTracer] at h
      subst h
      exact ⟨by simp [chain], rfl⟩
  | wrapf i m inner ih =>
      simp [asStackTracer] at h
      rcases ih h with ⟨h1, h2⟩
      exact ⟨by simp [chain, h1], h2⟩
  | statusError c inner ih =>
      simp [asStackTracer] at h
      rcases ih h with ⟨h1, h2⟩
      exact ⟨by simp [chain, h1], h2⟩
  | _ => simp [asStackTracer] at h

theorem asStackTracer_none_noTracer (e : GoError)
    (h : e.asStackTracer = none) : noTracerB e = true := by
  induction e with
  | nilE => simp [noTracerB, chain]
  | wrapf i m inner ih =>
      simp [asStackTracer] at h
      have := ih h
      simp [noTracerB, chain, isTracerB, List.all_eq_true] at this ⊢
      exact this
  | statusError c inner ih =>
      simp [asStackTracer] at h
      have := ih h
      simp [noTracerB, chain, isTracerB, List.all_eq_true] at this ⊢
      exact this
  | stackErr a tr s p _ _ => simp [asStackTracer] at h
  | base i m => simp [noTracerB, chain, isTracerB]
  | sentinel s => simp [noTracerB, chain, isTracerB]
  | msgOnly m => simp [noTracerB, chain, isTracerB]

theorem noTracer_asStackTracer_none (e : GoError)
    (h : noTracerB e = true) : e.asStackTracer = none := by
  induction e with
  | nilE => rfl
  | wrapf i m inner ih =>
      simp [noTracerB, chain, List.all_eq_true] at h ih ⊢
      simp [asStackTracer]
      exact ih fun s hs => (h.2 s hs)
  | statusError c inner ih =>
      simp [noTracerB, chain, List.all_eq_true] at h ih ⊢
      simp [asStackTracer]
      exact ih fun s hs => (h.2 s hs)
  | stackErr a tr s p _ _ =>
      simp [noTracerB, chain, isTracerB] at h
  | base i m => rfl
  | sentinel s => rfl
  | msgOnly m => rfl

theorem noTracer_chain (e : GoError) (h : noTracerB e = true) :
    ∀ s ∈ chain e, isTracerB s = false := by
  simp [noTracerB, List.all_eq_true] at h
  intro s hs
  simpa using h s hs

theorem stackTraceOf_delegate (a : GoError) (tr : List Frame) (st : GoError)
    (p : Bool) (h : isTracerB st = true) :
    stackTraceOf (.stackErr a tr st p) = stackTraceOf st := by
  cases st <;> simp [isTracerB] at h ⊢
  rfl

theorem countP_capturing_zero (l : List GoError)
    (h : ∀ s ∈ l, isTracerB s = false) : l.countP isCapturingB = 0 := by
  rw [List.countP_eq_zero]
  intro s hs hcap
  have := isCapturing_isTracer s hcap
  rw [h s hs] at this
  exact Bool.false_ne_true this

theorem goEq_refl_noTracer (e : GoError) (h : noTracerB e = true) :
    goEq e e = some true := by
  induction e with
  | nilE => rfl
  | base i m => simp [goEq]
  | sentinel s => simp [goEq]
  | wrapf i m inner _ => simp [goEq]
  | msgOnly m => simp [goEq]
  | stackErr a tr s p _ _ =>
      simp [noTracerB, chain, isTracerB] at h
  | statusError c inner ih =>
      have hi : noTracerB inner = true := by
        simp [noTracerB, chain, List.all_eq_true] at h ⊢
        exact fun s hs => h.2 s hs
      simp [goEq, ih hi]

theorem goEq_eq_of_true (a b : GoError) (h : goEq a b = some true) : a = b := by
  induction a generalizing b with
  | nilE => cases b <;> simp [goEq] at h <;> rfl
  | base i m =>
      cases b <;> simp [goEq] at h
      simp [h.1, h.2]
  | sentinel s =>
      cases b <;> simp [goEq] at h
      simp [h]
  | wrapf i m inner _ =>
      cases b <;> simp [goEq] at h
      simp [h.1, h.2.1, h.2.2]
  | msgOnly m =>
      cases b <;> simp [goEq] at h
      simp [h]
  | stackErr a tr s p _ _ =>
      cases b with
      | stackErr a2 tr2 s2 p2 =>
          cases p <;> cases p2 <;> simp [goEq] at h
          obtain ⟨h1, h2, h3⟩ := h
          subst h1; subst h2; subst h3; rfl
      | _ => simp [goEq] at h
  | statusError c inner ih =>
      cases b with
      | statusError c2 inner2 =>
          by_cases hc : c = c2
          · subst hc
            simp [goEq] at h
            simp [ih inner2 h]
          · simp [goEq, hc] at h
      | _ => simp [goEq] at h

end GoError

namespace GoError

theorem withStack_tracer (stk : List Frame) (e st : GoError)
    (h : e.asStackTracer = some st) : WithStack stk e = e := by
  cases e <;> simp [asStackTracer] at h <;> simp [WithStack, asStackTracer, h]

theorem withStack_fresh (stk : List Frame) (e : GoError) (h1 : e ≠ .nilE)
    (h2 : e.asStackTracer = none) :
    WithStack stk e = .stackErr e (buildStackTrace stk) .nilE false := by
  cases e <;> simp at h1 <;> simp [WithStack, asStackTracer] at h2 ⊢ <;>
    simp [h2]

theorem withStatusE_tracer (stk : List Frame) (c : Int) (e st : GoError)
    (h : e.asStackTracer = some st) :
    withStatusE stk c e = .statusError c e := by
  unfold withStatusE
  rw [h]

theorem withStatusE_fresh (stk : List Frame) (c : Int) (e : GoError)
    (h : e.asStackTracer = none) :
    withStatusE stk c e =
      .statusError c (.stackErr e (buildStackTrace stk) .nilE true) := by
  unfold withStatusE
  rw [h]

theorem errorf_pass (stk : List Frame) (i : Nat) (m : String) (w st : GoError)
    (h : (fmtErrorf i m w).asStackTracer = some st) :
    Errorf stk i m w = .stackErr (fmtErrorf i m w) [] st false := by
  unfold Errorf
  rw [h]

theorem errorf_fresh (stk : List Frame) (i : Nat) (m : String) (w : GoError)
    (h : (fmtErrorf i m w).asStackTracer = none) :
    Errorf stk i m w =
      .stackErr (fmtErrorf i m w) (buildStackTrace stk) .nilE false := by
  unfold Errorf
  rw [h]

theorem newStatusErrorf_pass (stk : List Frame) (c : Int) (i : Nat)
    (m : String) (w st : GoError)
    (h : (fmtErrorf i m w).asStackTracer = some st) :
    NewStatusErrorf stk c i m w =
      .statusError c (.stackErr (fmtErrorf i m w) [] st true) := by
  unfold NewStatusErrorf
  rw [h]

theorem newStatusErrorf_fresh (stk : List Frame) (c : Int) (i : Nat)
    (m : String) (w : GoError)
    (h : (fmtErrorf i m w).asStackTracer = none) :
    NewStatusErrorf stk c i m w =
      .statusError c
        (.stackErr (fmtErrorf i m w) (buildStackTrace stk) .nilE true) := by
  unfold NewStatusErrorf
  rw [h]

theorem gc_nilE : GoodChain .nilE := by
  constructor
  · simp [chain]
  · intro s hs
    simp [chain] at hs

theorem gc_noTracer (e : GoError) (h : noTracerB e = true) : GoodChain e := by
  constructor
  · rw [countP_capturing_zero _ (noTracer_chain e h)]
    omega
  · intro s hs htr
    rw [noTracer_chain e h s hs] at htr
    exact absurd htr (by simp)

theorem gc_cons_nonTracer (x e : GoError) (hx : isTracerB x = false)
    (hchain : chain x = x :: chain e) (hgc : GoodChain e) : GoodChain x := by
  obtain ⟨hcount, hall⟩ := hgc
  constructor
  · rw [hchain, List.countP_cons]
    have : isCapturingB x = false := by
      cases hc : isCapturingB x
      · rfl
      · rw [isCapturing_isTracer x hc] at hx
        exact absurd hx (by simp)
    simp [this]
    omega
  · intro s hs htr
    rw [hchain] at hs ⊢
    rcases List.mem_cons.mp hs with h1 | h1
    · subst h1
      rw [htr] at hx
      exact absurd hx (by simp)
    · obtain ⟨c, hc1, hc2, hc3⟩ := hall s h1 htr
      exact ⟨c, List.mem_cons_of_mem _ hc1, hc2, hc3⟩

theorem gc_fresh (e : GoError) (tr : List Frame) (p : Bool)
    (h : e.asStackTracer = none) : GoodChain (.stackErr e tr .nilE p) := by
  have hno := noTracer_chain e (asStackTracer_none_noTracer e h)
  constructor
  · rw [chain_stackErr, List.countP_cons, countP_capturing_zero _ hno]
    simp [isCapturingB]
  · intro s hs htr
    rw [chain_stackErr] at hs ⊢
    rcases List.mem_cons.mp hs with h1 | h1
    · subst h1
      exact ⟨.stackErr e tr .nilE p, List.mem_cons_self _ _, rfl, rfl⟩
    · rw [hno s h1] at htr
      exact absurd htr (by simp)

theorem notCapturing_delegate (a : GoError) (tr : List Frame) (st : GoError)
    (p : Bool) (h : isTracerB st = true) :
    isCapturingB (.stackErr a tr st p) = false := by
  cases st <;> simp [isTracerB] at h <;> simp [isCapturingB]

theorem gc_pass (f : GoError) (tr : List Frame) (st : GoError) (p : Bool)
    (hgc : GoodChain f) (h : f.asStackTracer = some st) :
    GoodChain (.stackErr f tr st p) := by
  obtain ⟨hmem, htr⟩ := asStackTracer_mem f st h
  obtain ⟨hcount, hall⟩ := hgc
  constructor
  · rw [chain_stackErr, List.countP_cons, notCapturing_delegate _ _ _ _ htr]
    simpa using hcount
  · intro s hs hstr
    rw [chain_stackErr] at hs ⊢
    rcases List.mem_cons.mp hs with h1 | h1
    · subst h1
      obtain ⟨c, hc1, hc2, hc3⟩ := hall st hmem htr
      refine ⟨c, List.mem_cons_of_mem _ hc1, hc2, ?_⟩
      rw [stackTraceOf_delegate _ _ _ _ htr, hc3]
    · obtain ⟨c, hc1, hc2, hc3⟩ := hall s h1 hstr
      exact ⟨c, List.mem_cons_of_mem _ hc1, hc2, hc3⟩

theorem gc_fmtErrorf (i : Nat) (m : String) (w : GoError)
    (h : GoodChain w) : GoodChain (fmtErrorf i m w) := by
  cases w with
  | nilE => exact gc_noTracer _ rfl
  | base j n => exact gc_cons_nonTracer _ _ rfl rfl h
  | sentinel s => exact gc_cons_nonTracer _ _ rfl rfl h
  | wrapf j n inner => exact gc_cons_nonTracer _ _ rfl rfl h
  | msgOnly n => exact gc_cons_nonTracer _ _ rfl rfl h
  | stackErr a tr st p => exact gc_cons_nonTracer _ _ rfl rfl h
  | statusError c inner => exact gc_cons_nonTracer _ _ rfl rfl h

end GoError

/-- C2: for every error built by any composition of New, WithStack, Errorf,
WithStatus, NewStatusError, NewStatusErrorf and NewFromStatus (over arbitrary
trace-free inputs and fmt wrapping), at most one element of its unwrap chain
holds an actually captured stack snapshot, and every trace-capable element of
the chain resolves its StackTrace() to the frames of that capturer. -/
theorem c2_single_capture_invariant (e : GoError) (h : GoError.Built e) :
    GoError.GoodChain e := by
  induction h with
  | foreign e h => exact GoError.gc_noTracer e h
  | fmtwrap i m e _ ih => exact GoError.gc_cons_nonTracer _ _ rfl rfl ih
  | new stk i m => exact GoError.gc_fresh _ _ _ rfl
  | wstack stk e _ ih =>
      cases he : e.asStackTracer with
      | some st =>
          rw [GoError.withStack_tracer stk e st he]
          exact ih
      | none =>
          cases e with
          | nilE => exact GoError.gc_nilE
          | base j n =>
              rw [GoError.withStack_fresh stk _ (by simp) he]
              exact GoError.gc_fresh _ _ _ he
          | sentinel s =>
              rw [GoError.withStack_fresh stk _ (by simp) he]
              exact GoError.gc_fresh _ _ _ he
          | wrapf j n inner =>
              rw [GoError.withStack_fresh stk _ (by simp) he]
              exact GoError.gc_fresh _ _ _ he
          | msgOnly n =>
              rw [GoError.withStack_fresh stk _ (by simp) he]
              exact GoError.gc_fresh _ _ _ he
          | stackErr a tr st p => simp [GoError.asStackTracer] at he
          | statusError c inner =>
              rw [GoError.withStack_fresh stk _ (by simp) he]
              exact GoError.gc_fresh _ _ _ he
  | errf stk i m w _ ih =>
      have hf := GoError.gc_fmtErrorf i m w ih
      cases he : (fmtErrorf i m w).asStackTracer with
      | some st =>
          rw [GoError.errorf_pass stk i m w st he]
          exact GoError.gc_pass _ _ _ _ hf he
      | none =>
          rw [GoError.errorf_fresh stk i m w he]
          exact GoError.gc_fresh _ _ _ he
  | wstatus stk c e _ ih =>
      cases he : e.asStackTracer with
      | some st =>
          rw [GoError.withStatusE_tracer stk c e st he]
          exact GoError.gc_cons_nonTracer _ _ rfl rfl ih
      | none =>
          rw [GoError.withStatusE_fresh stk c e he]
          exact GoError.gc_cons_nonTracer _ _ rfl rfl
            (GoError.gc_fresh _ _ _ he)
  | nse stk c i m =>
      exact GoError.gc_cons_nonTracer _ _ rfl rfl (GoError.gc_fresh _ _ _ rfl)
  | nsef stk c i m w _ ih =>
      have hf := GoError.gc_fmtErrorf i m w ih
      cases he : (fmtErrorf i m w).asStackTracer with
      | some st =>
          rw [GoError.newStatusErrorf_pass stk c i m w st he]
          exact GoError.gc_cons_nonTracer _ _ rfl rfl
            (GoError.gc_pass _ _ _ _ hf he)
      | none =>
          rw [GoError.newStatusErrorf_fresh stk c i m w he]
          exact GoError.gc_cons_nonTracer _ _ rfl rfl
            (GoError.gc_fresh _ _ _ he)
  | nfs stk c i =>
      exact GoError.gc_cons_nonTracer _ _ rfl rfl (GoError.gc_fresh _ _ _ rfl)

/-- Witness for C2: a concrete composition — a status error formatted around
an Errorf around a New — is Built and satisfies the single-capture chain
invariant. -/
theorem c2_single_capture_invariant_witness :
    GoError.Built
      (NewStatusErrorf [⟨"h.h", "h.go", 7⟩] 500 2 "w: x"
        (Errorf [⟨"g.g", "g.go", 4⟩] 1 "x: boom"
          (New [⟨"f.f", "f.go", 1⟩] 0 "boom"))) ∧
    GoError.GoodChain
      (NewStatusErrorf [⟨"h.h", "h.go", 7⟩] 500 2 "w: x"
        (Errorf [⟨"g.g", "g.go", 4⟩] 1 "x: boom"
          (New [⟨"f.f", "f.go", 1⟩] 0 "boom"))) := by
  refine ⟨?_, c2_single_capture_invariant _ ?_⟩ <;>
    exact GoError.Built.nsef _ _ _ _ _
      (GoError.Built.errf _ _ _ _ (GoError.Built.new _ _ _))

/-- C5: WithStatus called with a nil error aborts with the panic message
"cannot attach status to nil error", and panics exactly on nil input (every
non-nil input produces a value). -/
theorem c5_withStatus_nil_panics :
    ∀ (stk : List Frame) (c : Int),
      WithStatus stk c .nilE = .error "cannot attach status to nil error" ∧
      ∀ e : GoError,
        (WithStatus stk c e = .error "cannot attach status to nil error" ↔
          e = .nilE) := by
  intro stk c
  refine ⟨rfl, ?_⟩
  intro e
  cases e <;> simp [WithStatus]

/-- C7: extracting the status code with the errors.As walk for a StatusCoder
returns exactly the code passed to WithStatus (non-nil branch),
NewStatusError, NewStatusErrorf and NewFromStatus. -/
theorem c7_status_code_extraction :
    ∀ (stk : List Frame) (c : Int) (e : GoError) (i : Nat) (m : String)
      (w : GoError),
      GoError.statusCodeOf (withStatusE stk c e) = some c ∧
      GoError.statusCodeOf (NewStatusError stk c i m) = some c ∧
      GoError.statusCodeOf (NewStatusErrorf stk c i m w) = some c ∧
      GoError.statusCodeOf (NewFromStatus stk c i) = some c := by
  intro stk c e i m w
  refine ⟨?_, rfl, ?_, rfl⟩
  · unfold withStatusE
    cases h : e.asStackTracer <;> simp [GoError.statusCodeOf]
  · unfold NewStatusErrorf
    cases h : (fmtErrorf i m w).asStackTracer <;>
      simp [GoError.statusCodeOf]

/-- C8: NewFromStatus derives its message from http.StatusText, falling back
to "Unknown Status Error" exactly when the code is unrecognized; recognized
codes yield the canonical reason phrase (200 yields "OK"). -/
theorem c8_new_from_status_message :
    ∀ (stk : List Frame) (c : Int) (i : Nat),
      GoError.errMsg (NewFromStatus stk c i) =
        (if httpStatusText c = "" then "Unknown Status Error"
         else httpStatusText c) ∧
      GoError.errMsg (NewFromStatus stk 200 i) = "OK" ∧
      GoError.errMsg (NewFromStatus stk 418 i) = "I\x27m a teapot" ∧
      GoError.errMsg (NewFromStatus stk (-1) i) = "Unknown Status Error" := by
  intro stk c i
  refine ⟨rfl, rfl, rfl, rfl⟩

theorem mapM_ok_length (f : Frame → Except GoError String) :
    ∀ (l : List Frame) (ys : List String),
      l.mapM f = .ok ys → ys.length = l.length := by
  intro l
  induction l with
  | nil =>
      intro ys h
      simp only [List.mapM_nil, pure, Except.pure] at h
      cases h
      rfl
  | cons a l ih =>
      intro ys h
      rw [List.mapM_cons] at h
      cases hf : f a with
      | error e =>
          rw [hf] at h
          simp [Bind.bind, Except.bind] at h
      | ok x =>
          rw [hf] at h
          cases hl : l.mapM f with
          | error e =>
              rw [hl] at h
              simp [Bind.bind, Except.bind] at h
          | ok xs =>
              rw [hl] at h
              simp only [Bind.bind, Except.bind, pure, Except.pure] at h
              cases h
              simp [ih xs hl]

theorem framesSeq_length_le (fs : List Frame) (h : fs.length ≤ 20) :
    (framesSeq fs).length ≤ 20 := by
  cases fs with
  | nil => simp [framesSeq]
  | cons a l => simpa [framesSeq] using h

theorem mapM_error_of_fail (t : Template) (terr : GoError)
    (hfail : ∀ f, t.render f = .error terr) (fs : List Frame) :
    renderAll t fs = .error terr := by
  unfold renderAll
  cases hq : framesSeq fs with
  | nil =>
      exfalso
      cases fs <;> simp [framesSeq] at hq
  | cons a l =>
      rw [List.mapM_cons, hfail a]
      simp [Bind.bind, Except.bind]

/-- C9: two Sentinel errors are == and errors.Is equal exactly when their
strings are equal, and a sentinel wrapped by Errorf with a %w verb is still
chain-equal (errors.Is) to the bare sentinel. -/
theorem c9_sentinel_equality :
    ∀ (a b s m : String) (stk : List Frame) (i : Nat),
      GoError.goEq (.sentinel a) (.sentinel b) = some (decide (a = b)) ∧
      GoError.errorsIs (.sentinel a) (.sentinel b) = some (decide (a = b)) ∧
      GoError.errorsIs (Errorf stk i m (.sentinel s)) (.sentinel s) =
        some true := by
  intro a b s m stk i
  refine ⟨rfl, ?_, ?_⟩
  · by_cases h : a = b
    · subst h
      simp [GoError.errorsIs, GoError.eqStep, GoError.goEq,
        GoError.typeComparable, GoError.orElseO]
    · simp [GoError.errorsIs, GoError.eqStep, GoError.goEq,
        GoError.typeComparable, GoError.orElseO, h]
  · simp [Errorf, fmtErrorf, GoError.asStackTracer, GoError.errorsIs,
      GoError.eqStep, GoError.goEq, GoError.typeComparable, GoError.orElseO,
      GoError.valueStackErrInner]

/-- C10: buildStackTrace records at most the first 20 frames past the skip
offset (deeper stacks are silently truncated to the 20-entry buffer), and
rendering the trace of an error whose resolved snapshot was captured by
buildStackTrace — by Trace with any template, or line by line with the
standard template — yields at most 20 frame lines. -/
theorem c10_capture_buffer_twenty :
    (∀ stk : List Frame, buildStackTrace stk = stk.take 20) ∧
    (∀ stk : List Frame, (buildStackTrace stk).length ≤ 20) ∧
    (∀ fs : List Frame, fs.length ≤ 20 → (standardLines fs).length ≤ 20) ∧
    (∀ (stk stk2 : List Frame) (e st : GoError) (t : Template)
        (lines : List String),
      e.asStackTracer = some st →
      st.stackTraceOf = buildStackTrace stk →
      (Trace stk2 e t).1 = some lines → lines.length ≤ 20) := by
  have hlen : ∀ stk : List Frame, (buildStackTrace stk).length ≤ 20 := by
    intro stk
    simp [buildStackTrace]
  refine ⟨fun _ => rfl, hlen, ?_, ?_⟩
  · intro fs h
    simpa [standardLines] using framesSeq_length_le fs h
  · intro stk stk2 e st t lines hst htr h
    unfold Trace at h
    rw [hst] at h
    simp only [] at h
    cases hr : renderAll t st.stackTraceOf with
    | error terr => rw [hr] at h; simp at h
    | ok ls =>
        rw [hr] at h
        simp at h
        subst h
        unfold renderAll at hr
        have := mapM_ok_length t.render _ _ hr
        rw [this, htr]
        exact framesSeq_length_le _ (hlen stk)

/-- Witness for C10: a New with a one-frame ambient stack satisfies the
hypotheses of the Trace line bound concretely. -/
theorem c10_capture_buffer_twenty_witness :
    (New [⟨"f.f", "f.go", 1⟩] 0 "x").asStackTracer =
        some (New [⟨"f.f", "f.go", 1⟩] 0 "x") ∧
    (New [⟨"f.f", "f.go", 1⟩] 0 "x").stackTraceOf =
        buildStackTrace [⟨"f.f", "f.go", 1⟩] ∧
    (Trace [] (New [⟨"f.f", "f.go", 1⟩] 0 "x") StandardFormat).1 =
        some ["f.f (f.go:1)"] ∧
    (["f.f (f.go:1)"] : List String).length ≤ 20 :=
  ⟨rfl, rfl, rfl,
    c10_capture_buffer_twenty.2.2.2 [⟨"f.f", "f.go", 1⟩] []
      (New [⟨"f.f", "f.go", 1⟩] 0 "x") (New [⟨"f.f", "f.go", 1⟩] 0 "x")
      StandardFormat ["f.f (f.go:1)"] rfl rfl rfl⟩

/-- C6: when a trace-carrying error is rendered by Trace with a template whose
execution fails on every frame (as an undefined-field template does), the
result is a nil line slice — no partial list — together with a non-nil error
whose message is the template failure's and which itself holds a freshly
captured stack trace. -/
theorem c6_template_failure :
    ∀ (stk : List Frame) (e st : GoError) (t : Template) (terr : GoError),
      e.asStackTracer = some st →
      terr ≠ .nilE →
      terr.asStackTracer = none →
      (∀ f, t.render f = .error terr) →
      Trace stk e t =
        (none, .stackErr terr (buildStackTrace stk) .nilE false) ∧
      GoError.errMsg (.stackErr terr (buildStackTrace stk) .nilE false) =
        GoError.errMsg terr ∧
      GoError.isCapturingB
        (.stackErr terr (buildStackTrace stk) .nilE false) = true := by
  intro stk e st t terr hst hne hnone hfail
  refine ⟨?_, rfl, rfl⟩
  unfold Trace
  rw [hst]
  simp only []
  rw [mapM_error_of_fail t terr hfail]
  simp only []
  rw [GoError.withStack_fresh stk terr hne hnone]

/-- Witness for C6: a concrete always-failing template over a concrete traced
error returns the nil slice and the trace-wrapped template error. -/
theorem c6_template_failure_witness :
    Trace [] (New [⟨"f.f", "f.go", 1⟩] 0 "bad")
        ⟨fun _ => .error (.base 9 "cannot evaluate field Foobar")⟩ =
      (none, .stackErr (.base 9 "cannot evaluate field Foobar") [] .nilE
        false) ∧
    GoError.errMsg
        (.stackErr (.base 9 "cannot evaluate field Foobar")
          (buildStackTrace []) .nilE false) =
      GoError.errMsg (.base 9 "cannot evaluate field Foobar") :=
  ⟨((c6_template_failure [] (New [⟨"f.f", "f.go", 1⟩] 0 "bad")
      (New [⟨"f.f", "f.go", 1⟩] 0 "bad")
      ⟨fun _ => .error (.base 9 "cannot evaluate field Foobar")⟩
      (.base 9 "cannot evaluate field Foobar") rfl (by simp) rfl
      (fun _ => rfl)).1),
   ((c6_template_failure [] (New [⟨"f.f", "f.go", 1⟩] 0 "bad")
      (New [⟨"f.f", "f.go", 1⟩] 0 "bad")
      ⟨fun _ => .error (.base 9 "cannot evaluate field Foobar")⟩
      (.base 9 "cannot evaluate field Foobar") rfl (by simp) rfl
      (fun _ => rfl)).2.1)⟩

namespace GoError

theorem orElseO_some_true (b : Option Bool) : orElseO (some true) b = some true :=
  rfl

theorem errorsIs_of_eqStep_true (e t : GoError) (h : eqStep e t = some true) :
    errorsIs e t = some true := by
  unfold errorsIs
  rw [h]
  rfl

theorem typeComparable_of_notTracer (e : GoError) (h : isTracerB e = false) :
    typeComparable e = true := by
  cases e <;> simp [isTracerB, typeComparable] at h ⊢

theorem notTracer_of_noTracer (e : GoError) (h : noTracerB e = true)
    (hne : e ≠ .nilE) : isTracerB e = false :=
  noTracer_chain e h e (self_mem_chain e hne)

theorem errorsIs_refl_noTracer (e : GoError) (h : noTracerB e = true)
    (hne : e ≠ .nilE) : errorsIs e e = some true := by
  apply errorsIs_of_eqStep_true
  unfold eqStep
  rw [typeComparable_of_notTracer e (notTracer_of_noTracer e h hne)]
  simp [goEq_refl_noTracer e h]

end GoError

/-- C3, counterexample: for e = WithStatus(400, New("x")) — already traced, so
WithStack returns it unchanged — comparing WithStack(WithStack(e)) against
WithStack(e) with errors.Is panics (modelled as `none`) instead of holding:
the == step of the Is loop compares two statusError values with equal codes
whose Err fields hold the non-comparable stackErr value. -/
theorem c3_counterexample :
    WithStack [] (withStatusE [] 400 (New [] 0 "x")) =
      withStatusE [] 400 (New [] 0 "x") ∧
    GoError.errorsIs
      (WithStack [] (WithStack [] (withStatusE [] 400 (New [] 0 "x"))))
      (WithStack [] (withStatusE [] 400 (New [] 0 "x"))) = none :=
  ⟨rfl, rfl⟩

/-- C3, amended: WithStack is literally idempotent — WithStack(WithStack(e))
and WithStack(e) are the same value, so every observation (message, trace,
rendering) coincides — and when e's chain already contains a StackTracer
WithStack returns e itself; errors.Is between the two results returns true
whenever e is non-nil and trace-free (the fresh-capture case); for certain
already-traced inputs (a status error directly holding a non-comparable
stackErr value) the comparison panics instead of returning true. -/
theorem c3_withStack_idempotent :
    (∀ (stk1 stk2 : List Frame) (e : GoError),
      WithStack stk2 (WithStack stk1 e) = WithStack stk1 e) ∧
    (∀ (stk : List Frame) (e st : GoError),
      e.asStackTracer = some st → WithStack stk e = e) ∧
    (∀ (stk : List Frame) (e : GoError), e ≠ .nilE →
      GoError.noTracerB e = true →
      GoError.errorsIs (WithStack stk (WithStack stk e))
        (WithStack stk e) = some true) := by
  refine ⟨?_, fun stk e st h => GoError.withStack_tracer stk e st h, ?_⟩
  · intro stk1 stk2 e
    by_cases he : e = .nilE
    · subst he
      rfl
    · cases h : e.asStackTracer with
      | some st =>
          rw [GoError.withStack_tracer stk1 e st h,
            GoError.withStack_tracer stk2 e st h]
      | none =>
          rw [GoError.withStack_fresh stk1 e he h]
          exact GoError.withStack_tracer stk2
            (.stackErr e (buildStackTrace stk1) .nilE false)
            (.stackErr e (buildStackTrace stk1) .nilE false) rfl
  · intro stk e hne hnt
    have hnone := GoError.noTracer_asStackTracer_none e hnt
    rw [GoError.withStack_fresh stk e hne hnone]
    rw [GoError.withStack_tracer stk
      (.stackErr e (buildStackTrace stk) .nilE false)
      (.stackErr e (buildStackTrace stk) .nilE false) rfl]
    unfold GoError.errorsIs
    have h1 : GoError.eqStep
        (.stackErr e (buildStackTrace stk) .nilE false)
        (.stackErr e (buildStackTrace stk) .nilE false) = some false := by
      simp [GoError.eqStep, GoError.typeComparable]
    rw [h1]
    simp only [GoError.orElseO, GoError.valueStackErrInner]
    simp only [hne, if_false]
    rw [GoError.errorsIs_refl_noTracer e hnt hne]

/-- Witness for C3: at a plain allocated error the fresh-capture branch of the
amended statement holds concretely. -/
theorem c3_withStack_idempotent_witness :
    (GoError.base 0 "x" ≠ GoError.nilE) ∧
    GoError.noTracerB (.base 0 "x") = true ∧
    GoError.errorsIs (WithStack [] (WithStack [] (.base 0 "x")))
      (WithStack [] (.base 0 "x")) = some true :=
  ⟨by simp, rfl,
    c3_withStack_idempotent.2.2 [] (.base 0 "x") (by simp) rfl⟩

namespace GoError

theorem orElseO_self (a : Option Bool) : orElseO a a = a := by
  cases a with
  | none => rfl
  | some v => cases v <;> rfl

theorem orElseO_false (b : Option Bool) : orElseO (some false) b = b := rfl

theorem orElseO_eq_some_true (a b : Option Bool) :
    orElseO a b = some true ↔
      a = some true ∨ (a = some false ∧ b = some true) := by
  cases a with
  | none => simp [orElseO]
  | some v => cases v <;> simp [orElseO]

theorem eqStep_true_goEq (e t : GoError) (h : eqStep e t = some true) :
    goEq e t = some true := by
  unfold eqStep at h
  split at h
  · exact h
  · exact absurd h (by simp)

theorem valueStackErrInner_none (t : GoError) (h : isTracerB t = false) :
    valueStackErrInner t = none := by
  cases t <;> simp [isTracerB, valueStackErrInner] at h ⊢

theorem goEq_stackErr_notTracer (inner : GoError) (tr : List Frame)
    (st t : GoError) (p : Bool) (h : isTracerB t = false) :
    goEq (.stackErr inner tr st p) t = some false := by
  cases t <;> simp [isTracerB, goEq] at h ⊢

theorem goEq_notTracer_vs_stackErr (a : GoError) (h : isTracerB a = false)
    (E : GoError) (tr : List Frame) (S : GoError) (p : Bool) :
    goEq a (.stackErr E tr S p) = some false := by
  cases a <;> simp [isTracerB, goEq] at h ⊢

theorem errorsIs_wrapf_skip (i : Nat) (m : String) (inner t : GoError)
    (hgoEq : goEq (.wrapf i m inner) t = some false)
    (hcomp : typeComparable t = true) :
    errorsIs (.wrapf i m inner) t = errorsIs inner t := by
  have h1 : eqStep (.wrapf i m inner) t = some false := by
    unfold eqStep
    rw [if_pos hcomp]
    exact hgoEq
  conv_lhs => unfold errorsIs
  rw [h1, orElseO_false]

theorem errorsIs_status_skip (c1 : Int) (inner t : GoError)
    (hgoEq : goEq (.statusError c1 inner) t = some false)
    (hcomp : typeComparable t = true) :
    errorsIs (.statusError c1 inner) t =
      if inner = .nilE then some false else errorsIs inner t := by
  have h1 : eqStep (.statusError c1 inner) t = some false := by
    unfold eqStep
    rw [if_pos hcomp]
    exact hgoEq
  conv_lhs => unfold errorsIs
  rw [h1, orElseO_false]

theorem errorsIs_stackErr_skip (inner : GoError) (tr : List Frame)
    (st t : GoError) (p : Bool) (ht : isTracerB t = false) :
    errorsIs (.stackErr inner tr st p) t =
      if inner = .nilE then some false else errorsIs inner t := by
  have h1 : eqStep (.stackErr inner tr st p) t = some false := by
    unfold eqStep
    rw [if_pos (typeComparable_of_notTracer t ht)]
    exact goEq_stackErr_notTracer inner tr st t p ht
  conv_lhs => unfold errorsIs
  rw [h1, orElseO_false, valueStackErrInner_none t ht]
  simp only []
  by_cases hin : inner = .nilE
  · rw [if_pos hin]
    rfl
  · rw [if_neg hin, orElseO_self]

theorem errorsIs_true_size (x t : GoError) (ht : isTracerB t = false)
    (h : errorsIs x t = some true) : sizeOf t ≤ sizeOf x := by
  induction x with
  | nilE =>
      unfold errorsIs at h
      rcases (orElseO_eq_some_true _ _).mp h with h1 | ⟨_, h2⟩
      · have heq := goEq_eq_of_true _ _ (eqStep_true_goEq _ _ h1)
        subst heq
        exact le_refl _
      · simp at h2
  | base i m =>
      unfold errorsIs at h
      rcases (orElseO_eq_some_true _ _).mp h with h1 | ⟨_, h2⟩
      · have heq := goEq_eq_of_true _ _ (eqStep_true_goEq _ _ h1)
        subst heq
        exact le_refl _
      · simp at h2
  | sentinel s =>
      unfold errorsIs at h
      rcases (orElseO_eq_some_true _ _).mp h with h1 | ⟨_, h2⟩
      · have heq := goEq_eq_of_true _ _ (eqStep_true_goEq _ _ h1)
        subst heq
        exact le_refl _
      · simp at h2
  | msgOnly m =>
      unfold errorsIs at h
      rcases (orElseO_eq_some_true _ _).mp h with h1 | ⟨_, h2⟩
      · have heq := goEq_eq_of_true _ _ (eqStep_true_goEq _ _ h1)
        subst heq
        exact le_refl _
      · simp at h2
  | wrapf i m inner ih =>
      unfold errorsIs at h
      rcases (orElseO_eq_some_true _ _).mp h with h1 | ⟨_, h2⟩
      · have heq := goEq_eq_of_true _ _ (eqStep_true_goEq _ _ h1)
        subst heq
        exact le_refl _
      · have hle := ih h2
        have hs : sizeOf (GoError.wrapf i m inner) =
            1 + sizeOf i + sizeOf m + sizeOf inner := by
          simp
        omega
  | statusError c inner ih =>
      unfold errorsIs at h
      simp only [] at h
      rcases (orElseO_eq_some_true _ _).mp h with h1 | ⟨_, h2⟩
      · have heq := goEq_eq_of_true _ _ (eqStep_true_goEq _ _ h1)
        subst heq
        exact le_refl _
      · by_cases hin : inner = .nilE
        · rw [if_pos hin] at h2
          simp at h2
        · rw [if_neg hin] at h2
          have hle := ih h2
          have hs : sizeOf (GoError.statusError c inner) =
              1 + sizeOf c + sizeOf inner := by
            simp
          omega
  | stackErr inner tr st p ih_inner ih_st =>
      rw [errorsIs_stackErr_skip inner tr st t p ht] at h
      by_cases hin : inner = .nilE
      · rw [if_pos hin] at h
        simp at h
      · rw [if_neg hin] at h
        have hle := ih_inner h
        have hs : sizeOf (GoError.stackErr inner tr st p) =
            1 + sizeOf inner + sizeOf tr + sizeOf st + sizeOf p := by
          simp
        omega

theorem errorsIs_noTracer_vs_status (x : GoError)
    (hx : ∀ s ∈ chain x, isTracerB s = false) (c : Int) (E : GoError)
    (tr : List Frame) (S : GoError) (p : Bool) :
    errorsIs x (.statusError c (.stackErr E tr S p)) = some false := by
  induction x with
  | nilE => rfl
  | base i m => rfl
  | sentinel s => rfl
  | msgOnly m => rfl
  | stackErr a tr2 st2 p2 _ _ =>
      have := hx _ (self_mem_chain _ (by simp))
      simp [isTracerB] at this
  | wrapf i m inner ih =>
      have hsub : ∀ s ∈ chain inner, isTracerB s = false := by
        intro s hs
        exact hx s (by rw [chain_wrapf]; exact List.mem_cons_of_mem _ hs)
      rw [errorsIs_wrapf_skip i m inner (.statusError c (.stackErr E tr S p))
        (by simp [goEq]) rfl]
      exact ih hsub
  | statusError c2 inner ih =>
      have hsub : ∀ s ∈ chain inner, isTracerB s = false := by
        intro s hs
        exact hx s
          (by rw [chain_statusError]; exact List.mem_cons_of_mem _ hs)
      have hintr : isTracerB inner = false := by
        by_cases hin : inner = .nilE
        · simp [hin, isTracerB]
        · exact hsub inner (self_mem_chain inner hin)
      have hgoEq : goEq (.statusError c2 inner)
          (.statusError c (.stackErr E tr S p)) = some false := by
        by_cases hc : c2 = c
        · simp [goEq, hc, goEq_notTracer_vs_stackErr inner hintr]
        · simp [goEq, hc]
      rw [errorsIs_status_skip c2 inner (.statusError c (.stackErr E tr S p))
        hgoEq rfl]
      by_cases hin : inner = .nilE
      · rw [if_pos hin]
      · rw [if_neg hin]
        exact ih hsub

end GoError

/-- C4, counterexample: for e = Errorf("w: %w", WithStatus(500, New("x"))) —
a traced chain containing a status error with code 500 over a non-comparable
stackErr value — errors.Is(WithStatus(400, e), WithStatus(500, e)) panics
(modelled as `none`) rather than returning false: the == step of the Is loop
reaches the nested statusError with matching code 500 and compares two
non-comparable stackErr values. -/
theorem c4_counterexample :
    ((400 : Int) ≠ 500) ∧
    GoError.errorsIs
      (withStatusE [] 400
        (Errorf [] 1 "w: x" (withStatusE [] 500 (New [] 0 "x"))))
      (withStatusE [] 500
        (Errorf [] 1 "w: x" (withStatusE [] 500 (New [] 0 "x")))) = none :=
  ⟨by decide, rfl⟩

/-- C4, amended: for status codes c1 ≠ c2, errors.Is comparing
WithStatus(c1, e) against WithStatus(c2, e) never returns true — differing
codes over the same cause never collapse to equal — and it returns false for
every e whose chain is free of stack tracers (in particular on the fresh
capture path); for certain already-traced e the == step panics instead of
returning false. -/
theorem c4_withStatus_codes_not_equal :
    ∀ (stk1 stk2 : List Frame) (c1 c2 : Int) (e : GoError), c1 ≠ c2 →
      GoError.errorsIs (withStatusE stk1 c1 e) (withStatusE stk2 c2 e) ≠
        some true ∧
      (GoError.noTracerB e = true →
        GoError.errorsIs (withStatusE stk1 c1 e) (withStatusE stk2 c2 e) =
          some false) := by
  intro stk1 stk2 c1 c2 e hc
  have hsecond : GoError.noTracerB e = true →
      GoError.errorsIs (withStatusE stk1 c1 e) (withStatusE stk2 c2 e) =
        some false := by
    intro hnt
    have hnone := GoError.noTracer_asStackTracer_none e hnt
    rw [GoError.withStatusE_fresh stk1 c1 e hnone,
        GoError.withStatusE_fresh stk2 c2 e hnone]
    rw [GoError.errorsIs_status_skip c1
      (.stackErr e (buildStackTrace stk1) .nilE true)
      (.statusError c2 (.stackErr e (buildStackTrace stk2) .nilE true))
      (by simp [GoError.goEq, hc]) rfl]
    rw [if_neg (by simp)]
    rw [GoError.errorsIs_stackErr_skip e (buildStackTrace stk1) .nilE
      (.statusError c2 (.stackErr e (buildStackTrace stk2) .nilE true))
      true rfl]
    by_cases hin : e = .nilE
    · rw [if_pos hin]
    · rw [if_neg hin]
      exact GoError.errorsIs_noTracer_vs_status e
        (GoError.noTracer_chain e hnt) c2 e (buildStackTrace stk2) .nilE true
  refine ⟨?_, hsecond⟩
  cases hs : e.asStackTracer with
  | none =>
      rw [hsecond (GoError.asStackTracer_none_noTracer e hs)]
      simp
  | some st =>
      have hne : e ≠ .nilE := by
        intro he
        subst he
        simp [GoError.asStackTracer] at hs
      rw [GoError.withStatusE_tracer stk1 c1 e st hs,
          GoError.withStatusE_tracer stk2 c2 e st hs]
      intro hcontra
      rw [GoError.errorsIs_status_skip c1 e (.statusError c2 e)
        (by simp [GoError.goEq, hc]) rfl] at hcontra
      rw [if_neg hne] at hcontra
      have hsz := GoError.errorsIs_true_size e (.statusError c2 e) rfl hcontra
      have hs2 : sizeOf (GoError.statusError c2 e) =
          1 + sizeOf c2 + sizeOf e := by
        simp
      omega

/-- Witness for C4: at a plain allocated cause with codes 400 and 500 the
comparison concretely returns false. -/
theorem c4_withStatus_codes_not_equal_witness :
    ((400 : Int) ≠ 500) ∧ GoError.noTracerB (.base 0 "oh boy") = true ∧
    GoError.errorsIs (withStatusE [] 400 (.base 0 "oh boy"))
      (withStatusE [] 500 (.base 0 "oh boy")) = some false :=
  ⟨by decide, rfl,
    (c4_withStatus_codes_not_equal [] [] 400 500 (.base 0 "oh boy")
      (by decide)).2 rfl⟩

namespace GoError

theorem fmtShort_stackErr (a : GoError) (tr : List Frame) (st : GoError)
    (p : Bool) : fmtShort (.stackErr a tr st p) = errMsg a := by
  simp [fmtShort, errMsg]

theorem fmtVerbose_stackErr (a : GoError) (tr : List Frame) (st : GoError)
    (p : Bool) :
    fmtVerbose (.stackErr a tr st p) =
      fmtVerbose a ++ "\n" ++
        String.intercalate "\n"
          (standardLines (stackTraceOf (.stackErr a tr st p))) := by
  simp [fmtVerbose]

theorem fmtShort_status_stackErr (c : Int) (a : GoError) (tr : List Frame)
    (st : GoError) (p : Bool) :
    fmtShort (.statusError c (.stackErr a tr st p)) = errMsg a := by
  simp [fmtShort, statusDelegateShort, errMsg]

theorem fmtVerbose_status_stackErr (c : Int) (a : GoError) (tr : List Frame)
    (st : GoError) (p : Bool) :
    fmtVerbose (.statusError c (.stackErr a tr st p)) =
      fmtVerbose (.stackErr a tr st p) := by
  simp [fmtVerbose, statusDelegateVerbose]

theorem errMsg_fmtErrorf (i : Nat) (m : String) (w : GoError) :
    errMsg (fmtErrorf i m w) = m := by
  cases w <;> rfl

theorem fmtVerbose_base (i : Nat) (m : String) :
    fmtVerbose (.base i m) = m := by
  simp [fmtVerbose, errMsg]

theorem fmtVerbose_fmtErrorf (i : Nat) (m : String) (w : GoError) :
    fmtVerbose (fmtErrorf i m w) = m := by
  cases w <;> simp [fmtErrorf, fmtVerbose, errMsg]

end GoError

/-- C1, counterexample: WithStack applied to a plain fmt wrapper around a
traced error returns that wrapper unchanged; the result carries a trace
(Trace renders its frames) but its outermost type is not a fmt.Formatter, so
the extended %+v rendering prints only the message with no frame lines,
contradicting the claim that every traced error's extended rendering is the
message followed by the frame list. -/
theorem c1_counterexample :
    WithStack []
        (.wrapf 7 "w: x" (New [⟨"main.main", "main.go", 10⟩] 0 "x")) =
      .wrapf 7 "w: x" (New [⟨"main.main", "main.go", 10⟩] 0 "x") ∧
    (Trace [] (.wrapf 7 "w: x" (New [⟨"main.main", "main.go", 10⟩] 0 "x"))
        StandardFormat).1 = some ["main.main (main.go:10)"] ∧
    GoError.fmtVerbose
        (.wrapf 7 "w: x" (New [⟨"main.main", "main.go", 10⟩] 0 "x")) =
      "w: x" ∧
    GoError.fmtVerbose
        (.wrapf 7 "w: x" (New [⟨"main.main", "main.go", 10⟩] 0 "x")) ≠
      GoError.errMsg
          (.wrapf 7 "w: x" (New [⟨"main.main", "main.go", 10⟩] 0 "x")) ++
        "\n" ++
        String.intercalate "\n"
          (standardLines
            (GoError.resultFrames
              (.wrapf 7 "w: x"
                (New [⟨"main.main", "main.go", 10⟩] 0 "x")))) := by
  refine ⟨rfl, rfl, ?_, ?_⟩
  · simp [GoError.fmtVerbose, GoError.errMsg]
  · simp [GoError.fmtVerbose, GoError.errMsg, GoError.resultFrames,
      GoError.asStackTracer, GoError.stackTraceOf, New, buildStackTrace,
      standardLines, framesSeq, standardRender]
    decide

/-- C1, amended: the plain Error() rendering of the wrapping constructors is
always exactly the wrapped cause's message with no frame text; whenever the
constructor leaves the library's own wrapper outermost — always for New,
Errorf, NewStatusError, NewStatusErrorf and NewFromStatus, and for
WithStack/WithStatus when the input chain had no StackTracer — the short
%s/%v rendering equals that message and the extended %+v rendering is the
message followed by the resolved frame list, one frame per line, rendered
with the default StandardFormat template; when WithStack returns an
already-traced input unchanged its renderings are whatever the input's
outermost type provides (possibly without frames, as the counterexample
shows). -/
theorem c1_rendering :
    (∀ (stk : List Frame) (e : GoError),
      GoError.errMsg (WithStack stk e) = GoError.errMsg e) ∧
    (∀ (stk : List Frame) (c : Int) (e : GoError),
      GoError.errMsg (withStatusE stk c e) = GoError.errMsg e) ∧
    (∀ (stk : List Frame) (i : Nat) (m : String),
      GoError.errMsg (New stk i m) = m ∧
      GoError.fmtShort (New stk i m) = m ∧
      GoError.fmtVerbose (New stk i m) =
        m ++ "\n" ++
          String.intercalate "\n" (standardLines (buildStackTrace stk))) ∧
    (∀ (stk : List Frame) (i : Nat) (m : String) (w : GoError),
      GoError.errMsg (Errorf stk i m w) = m ∧
      GoError.fmtShort (Errorf stk i m w) = m ∧
      GoError.fmtVerbose (Errorf stk i m w) =
        m ++ "\n" ++
          String.intercalate "\n"
            (standardLines (GoError.resultFrames (Errorf stk i m w)))) ∧
    (∀ (stk : List Frame) (c : Int) (i : Nat) (m : String),
      GoError.errMsg (NewStatusError stk c i m) = m ∧
      GoError.fmtShort (NewStatusError stk c i m) = m ∧
      GoError.fmtVerbose (NewStatusError stk c i m) =
        m ++ "\n" ++
          String.intercalate "\n" (standardLines (buildStackTrace stk))) ∧
    (∀ (stk : List Frame) (c : Int) (i : Nat) (m : String) (w : GoError),
      GoError.errMsg (NewStatusErrorf stk c i m w) = m ∧
      GoError.fmtShort (NewStatusErrorf stk c i m w) = m ∧
      GoError.fmtVerbose (NewStatusErrorf stk c i m w) =
        m ++ "\n" ++
          String.intercalate "\n"
            (standardLines
              (GoError.resultFrames (NewStatusErrorf stk c i m w)))) ∧
    (∀ (stk : List Frame) (c : Int) (i : Nat),
      GoError.fmtShort (NewFromStatus stk c i) =
        GoError.errMsg (NewFromStatus stk c i) ∧
      GoError.fmtVerbose (NewFromStatus stk c i) =
        GoError.errMsg (NewFromStatus stk c i) ++ "\n" ++
          String.intercalate "\n" (standardLines (buildStackTrace stk))) ∧
    (∀ (stk : List Frame) (e : GoError), e ≠ .nilE →
      e.asStackTracer = none →
      GoError.fmtShort (WithStack stk e) = GoError.errMsg e ∧
      GoError.fmtVerbose (WithStack stk e) =
        GoError.fmtVerbose e ++ "\n" ++
          String.intercalate "\n" (standardLines (buildStackTrace stk))) ∧
    (∀ (stk : List Frame) (c : Int) (e : GoError),
      e.asStackTracer = none →
      GoError.fmtShort (withStatusE stk c e) = GoError.errMsg e ∧
      GoError.fmtVerbose (withStatusE stk c e) =
        GoError.fmtVerbose e ++ "\n" ++
          String.intercalate "\n" (standardLines (buildStackTrace stk))) := by
  refine ⟨?_, ?_, ?_, ?_, ?_, ?_, ?_, ?_, ?_⟩
  · intro stk e
    by_cases he : e = .nilE
    · subst he
      rfl
    · cases h : e.asStackTracer with
      | some st => rw [GoError.withStack_tracer stk e st h]
      | none =>
          rw [GoError.withStack_fresh stk e he h]
          rfl
  · intro stk c e
    cases h : e.asStackTracer with
    | some st =>
        rw [GoError.withStatusE_tracer stk c e st h]
        rfl
    | none =>
        rw [GoError.withStatusE_fresh stk c e h]
        rfl
  · intro stk i m
    refine ⟨rfl, ?_, ?_⟩
    · rw [show New stk i m =
        .stackErr (.base i m) (buildStackTrace stk) .nilE false from rfl,
        GoError.fmtShort_stackErr]
      rfl
    · rw [show New stk i m =
        .stackErr (.base i m) (buildStackTrace stk) .nilE false from rfl,
        GoError.fmtVerbose_stackErr, GoError.fmtVerbose_base]
      rfl
  · intro stk i m w
    cases h : (fmtErrorf i m w).asStackTracer with
    | some st =>
        rw [GoError.errorf_pass stk i m w st h]
        refine ⟨GoError.errMsg_fmtErrorf i m w, ?_, ?_⟩
        · rw [GoError.fmtShort_stackErr]
          exact GoError.errMsg_fmtErrorf i m w
        · rw [GoError.fmtVerbose_stackErr, GoError.fmtVerbose_fmtErrorf]
          rfl
    | none =>
        rw [GoError.errorf_fresh stk i m w h]
        refine ⟨GoError.errMsg_fmtErrorf i m w, ?_, ?_⟩
        · rw [GoError.fmtShort_stackErr]
          exact GoError.errMsg_fmtErrorf i m w
        · rw [GoError.fmtVerbose_stackErr, GoError.fmtVerbose_fmtErrorf]
          rfl
  · intro stk c i m
    refine ⟨rfl, ?_, ?_⟩
    · rw [show NewStatusError stk c i m = .statusError c
        (.stackErr (.base i m) (buildStackTrace stk) .nilE true) from rfl,
        GoError.fmtShort_status_stackErr]
      rfl
    · rw [show NewStatusError stk c i m = .statusError c
        (.stackErr (.base i m) (buildStackTrace stk) .nilE true) from rfl,
        GoError.fmtVerbose_status_stackErr, GoError.fmtVerbose_stackErr,
        GoError.fmtVerbose_base]
      rfl
  · intro stk c i m w
    cases h : (fmtErrorf i m w).asStackTracer with
    | some st =>
        rw [GoError.newStatusErrorf_pass stk c i m w st h]
        refine ⟨GoError.errMsg_fmtErrorf i m w, ?_, ?_⟩
        · rw [GoError.fmtShort_status_stackErr]
          exact GoError.errMsg_fmtErrorf i m w
        · rw [GoError.fmtVerbose_status_stackErr, GoError.fmtVerbose_stackErr,
            GoError.fmtVerbose_fmtErrorf]
          rfl
    | none =>
        rw [GoError.newStatusErrorf_fresh stk c i m w h]
        refine ⟨GoError.errMsg_fmtErrorf i m w, ?_, ?_⟩
        · rw [GoError.fmtShort_status_stackErr]
          exact GoError.errMsg_fmtErrorf i m w
        · rw [GoError.fmtVerbose_status_stackErr, GoError.fmtVerbose_stackErr,
            GoError.fmtVerbose_fmtErrorf]
          rfl
  · intro stk c i
    refine ⟨?_, ?_⟩
    · rw [show NewFromStatus stk c i = .statusError c
        (.stackErr
          (.base i
            (if httpStatusText c = "" then "Unknown Status Error"
             else httpStatusText c))
          (buildStackTrace stk) .nilE true) from rfl,
        GoError.fmtShort_status_stackErr]
      rfl
    · rw [show NewFromStatus stk c i = .statusError c
        (.stackErr
          (.base i
            (if httpStatusText c = "" then "Unknown Status Error"
             else httpStatusText c))
          (buildStackTrace stk) .nilE true) from rfl,
        GoError.fmtVerbose_status_stackErr, GoError.fmtVerbose_stackErr,
        GoError.fmtVerbose_base]
      rfl
  · intro stk e he h
    rw [GoError.withStack_fresh stk e he h]
    exact ⟨GoError.fmtShort_stackErr e (buildStackTrace stk) .nilE false,
      GoError.fmtVerbose_stackErr e (buildStackTrace stk) .nilE false⟩
  · intro stk c e h
    rw [GoError.withStatusE_fresh stk c e h]
    refine ⟨GoError.fmtShort_status_stackErr c e (buildStackTrace stk)
      .nilE true, ?_⟩
    rw [GoError.fmtVerbose_status_stackErr, GoError.fmtVerbose_stackErr]
    rfl

/-- Witness for C1: the fresh-capture branches hold concretely for WithStack
over a plain allocated error with a one-frame ambient stack. -/
theorem c1_rendering_witness :
    (GoError.base 0 "x" ≠ GoError.nilE) ∧
    (GoError.base 0 "x" : GoError).asStackTracer = none ∧
    GoError.fmtShort (WithStack [⟨"main.main", "main.go", 10⟩]
      (.base 0 "x")) = GoError.errMsg (.base 0 "x") :=
  ⟨by simp, rfl,
    (c1_rendering.2.2.2.2.2.2.2.1 [⟨"main.main", "main.go", 10⟩]
      (.base 0 "x") (by simp) rfl).1⟩
